import Mathlib

/-!
Verification development for the SPDX document assembly engine of this
repository. The definitions below are a shallow embedding of the two parsers
under src: the tag/value grammar engine in
src/src/spdx/parser/tagvalue/parser/tagvalue.py and the mapping-shaped
relationship normalizer in src/src/parser/json/relationship_parser.py.
Python exceptions are modelled with Except, the untyped per-element field
dictionaries with association lists over a closed value type, and the two-tier
error aggregator (the Logger class, which lives outside src) as ordered
lists of strings. Element model classes (File, Package, CreationInfo,
Relationship, Document) and small parsing helpers are not under src either;
where a definition stands in for them it is modelled from the spec and says so
in its doc comment.
-/

/-- Relationship types of the model that the spec names: the two invertible
pairs DESCRIBES/DESCRIBED_BY and CONTAINS/CONTAINED_BY, and the legacy
DEPENDENCY_OF used for fileDependencies. The real enum has further members;
only these are exercised by the code under verification, and every other
enum-name lookup fails, which the embedding represents by returning none. -/
inductive RelationshipType where
  | DESCRIBES
  | DESCRIBED_BY
  | CONTAINS
  | CONTAINED_BY
  | DEPENDENCY_OF
deriving DecidableEq

/-- An SPDX element reference: a concrete id string, or one of the two
sentinel values that may stand in place of an id. -/
inductive SpdxRef where
  | ref (s : String)
  | spdxNone
  | spdxNoAssertion
deriving DecidableEq

/-- Modelled from the spec, section 3: a relationship is the quadruple
(spdx_element_id, relationship_type, related_spdx_element_id, optional
comment). Equality is full structural equality, comment included, exactly as
dataclass equality behaves in the source model class. -/
structure Relationship where
  spdx_element_id : SpdxRef
  relationship_type : RelationshipType
  related_spdx_element_id : SpdxRef
  comment : Option String
deriving DecidableEq

/-- Python exception outcomes that the embedded code can raise. SPDXParsingError
carries whatever payload the raise site passed: normally a list of messages,
but parse_relationships passes the boolean result of has_messages, which the
payload variant parsingBool records. keyError, attributeError, indexError and
typeError model the corresponding builtin exceptions escaping uncaught. -/
inductive PyErr where
  | parsingMsgs (msgs : List String)
  | parsingBool (b : Bool)
  | keyError
  | attributeError
  | indexError
  | typeError
deriving DecidableEq

def joinMsgs (msgs : List String) : String :=
  String.intercalate "; " msgs

/-- Concatenation of the lists produced by f, used to state duplication
properties of the dependency phase. -/
def list_flat {α β : Type} (f : α → List β) : List α → List β
  | [] => []
  | a :: rest => f a ++ list_flat f rest

/- ===== Mapping-shaped relationship normalizer
   (src/src/parser/json/relationship_parser.py) ===== -/

/-- One entry of the relationships list of the mapping-shaped input; each key
may be absent, which Python dict.get renders as None. -/
structure RelDict where
  spdxElementId : Option String
  relatedSpdxElement : Option String
  relationshipType : Option String
  comment : Option String
deriving DecidableEq

/-- One entry of the packages list: its own id and the legacy hasFiles list.
An absent or empty hasFiles list is falsy in the source and skipped, so both
are represented by the empty list. -/
structure PkgDict where
  SPDXID : Option String
  hasFiles : List String
deriving DecidableEq

/-- One entry of the files list: its own id and the legacy fileDependencies
list, with absent-or-empty again collapsed to the empty list. -/
structure FileDict where
  SPDXID : Option String
  fileDependencies : List String
deriving DecidableEq

/-- The mapping-shaped document fragment that parse_all_relationships reads. -/
structure InputDoc where
  relationships : List RelDict
  documentDescribes : List String
  SPDXID : Option String
  packages : List PkgDict
  files : List FileDict
deriving DecidableEq

/-- Uppercasing of one ASCII character. -/
def to_upper_char (c : Char) : Char :=
  if ('a' ≤ c && c ≤ 'z') = true then Char.ofNat (c.toNat - 32) else c

/-- Modelled from the spec: the case/hyphen normalization applied to an enum
token before lookup (transform_json_str_to_enum_name is not under src) —
hyphens become underscores and ASCII letters are uppercased. -/
def transform_json_str_to_enum_name (s : String) : String :=
  String.mk (s.data.map (fun c => to_upper_char (if c = '-' then '_' else c)))

/-- Enum-name lookup RelationshipType[name]; any name other than the modelled
members raises KeyError in the source, rendered here as none. -/
def relationship_type_of_name (s : String) : Option RelationshipType :=
  if s = "DESCRIBES" then some RelationshipType.DESCRIBES
  else if s = "DESCRIBED_BY" then some RelationshipType.DESCRIBED_BY
  else if s = "CONTAINS" then some RelationshipType.CONTAINS
  else if s = "CONTAINED_BY" then some RelationshipType.CONTAINED_BY
  else if s = "DEPENDENCY_OF" then some RelationshipType.DEPENDENCY_OF
  else none

def parse_relationship_type (s : String) : Except (List String) RelationshipType :=
  match relationship_type_of_name (transform_json_str_to_enum_name s) with
  | some t => Except.ok t
  | none => Except.error ["RelationshipType " ++ s ++ " is not valid."]

/-- Modelled from the spec: the helper
try_parse_required_field_append_logger_when_failing is not under src. A None
field makes the transform raise AttributeError, which parse_relationship_type
turns into the not-a-str message; otherwise the lookup runs. -/
def try_parse_required_field (field : Option String) : Except (List String) RelationshipType :=
  match field with
  | none => Except.error ["RelationshipType must be str, not NoneType."]
  | some s => parse_relationship_type s

/-- Modelled from the spec: the typed-construction collaborator for
Relationship (not under src), raising one error per invalid field; an absent
id is the invalid-field case the normalizer exercises. -/
def relationship_construct (sid : Option String) (t : RelationshipType)
    (rid : Option String) (c : Option String) : Except (List String) Relationship :=
  match sid, rid with
  | some s, some r =>
    Except.ok { spdx_element_id := SpdxRef.ref s, relationship_type := t,
                related_spdx_element_id := SpdxRef.ref r, comment := c }
  | some _, none => Except.error ["SetterError Relationship: related_spdx_element_id is missing"]
  | none, some _ => Except.error ["SetterError Relationship: spdx_element_id is missing"]
  | none, none => Except.error ["SetterError Relationship: spdx_element_id is missing",
                                "SetterError Relationship: related_spdx_element_id is missing"]

/-- RelationshipParser.parse_relationship: parse the type (collecting its
failure), then construct the typed relationship. Its only failure mode is an
SPDXParsingError with a message list. -/
def parse_relationship (d : RelDict) : Except (List String) Relationship :=
  match try_parse_required_field d.relationshipType with
  | Except.error ms => Except.error ["Error while parsing relationship: " ++ joinMsgs ms]
  | Except.ok t => relationship_construct d.spdxElementId t d.relatedSpdxElement d.comment

/-- Loop body of RelationshipParser.parse_relationships: successes are
collected in order, failure messages are folded into the local logger. -/
def parse_relationships_loop : List RelDict → List String × List Relationship
  | [] => ([], [])
  | d :: rest =>
    let pr := parse_relationships_loop rest
    match parse_relationship d with
    | Except.ok r => (pr.1, r :: pr.2)
    | Except.error ms => (ms ++ pr.1, pr.2)

/-- RelationshipParser.parse_relationships. The raise site is transcribed
exactly: the source raises SPDXParsingError(logger.has_messages()), passing
the boolean result of has_messages instead of the collected message list, so
the error payload is the parsingBool variant. -/
def parse_relationships (ds : List RelDict) : Except PyErr (List Relationship) :=
  let pr := parse_relationships_loop ds
  if pr.1.isEmpty then Except.ok pr.2
  else Except.error (PyErr.parsingBool (!pr.1.isEmpty))

/-- RelationshipParser.ignore_any_comments_in_relationship_list: rebuild each
existing relationship without its comment. -/
def ignore_any_comments_in_relationship_list (rs : List Relationship) : List Relationship :=
  rs.map (fun r =>
    { spdx_element_id := r.spdx_element_id, relationship_type := r.relationship_type,
      related_spdx_element_id := r.related_spdx_element_id, comment := none })

/-- The convert_relationship_types class dictionary: only the two invertible
pairs have entries; looking up any other type raises KeyError, rendered as
none. -/
def convert_relationship_types : RelationshipType → Option RelationshipType
  | RelationshipType.DESCRIBES => some RelationshipType.DESCRIBED_BY
  | RelationshipType.DESCRIBED_BY => some RelationshipType.DESCRIBES
  | RelationshipType.CONTAINS => some RelationshipType.CONTAINED_BY
  | RelationshipType.CONTAINED_BY => some RelationshipType.CONTAINS
  | RelationshipType.DEPENDENCY_OF => none

/-- RelationshipParser.convert_relationship: swap source and target, replace
the type by its paired type, and keep the comment of the candidate. -/
def convert_relationship (r : Relationship) : Option Relationship :=
  match convert_relationship_types r.relationship_type with
  | none => none
  | some t =>
    some { spdx_element_id := r.related_spdx_element_id, relationship_type := t,
           related_spdx_element_id := r.spdx_element_id, comment := r.comment }

/-- RelationshipParser.check_if_relationship_exists: comments are stripped
from the existing relationships only; the candidate (and its inverse, which
inherits the candidate comment) is tested as-is. none models the KeyError
that convert_relationship raises for a type without an inverse. -/
def check_if_relationship_exists (r : Relationship) (created : List Relationship) : Option Bool :=
  let stripped := ignore_any_comments_in_relationship_list created
  if r ∈ stripped then some true
  else
    match convert_relationship r with
    | none => none
    | some rc => some (decide (rc ∈ stripped))

/-- The implied DESCRIBES candidate built for one described id. -/
def describes_cand (docId : String) (i : String) : Relationship :=
  { spdx_element_id := SpdxRef.ref docId, relationship_type := RelationshipType.DESCRIBES,
    related_spdx_element_id := SpdxRef.ref i, comment := none }

/-- The implied CONTAINS candidate built for one package/file pair. -/
def contains_cand (pkgId : String) (fid : String) : Relationship :=
  { spdx_element_id := SpdxRef.ref pkgId, relationship_type := RelationshipType.CONTAINS,
    related_spdx_element_id := SpdxRef.ref fid, comment := none }

/-- Loop of RelationshipParser.parse_document_describes over the described
ids: construction failures go to the local logger, and a candidate is kept
only when check_if_relationship_exists misses against created (the candidates
already kept in this very loop are never consulted). -/
def parse_document_describes_loop (docId : Option String) (created : List Relationship) :
    List String → Except PyErr (List String × List Relationship)
  | [] => Except.ok ([], [])
  | i :: rest =>
    match relationship_construct docId RelationshipType.DESCRIBES (some i) none with
    | Except.error ms =>
      match parse_document_describes_loop docId created rest with
      | Except.error e => Except.error e
      | Except.ok (msgs, acc) => Except.ok (joinMsgs ms :: msgs, acc)
    | Except.ok r =>
      match check_if_relationship_exists r created with
      | none => Except.error PyErr.keyError
      | some true => parse_document_describes_loop docId created rest
      | some false =>
        match parse_document_describes_loop docId created rest with
        | Except.error e => Except.error e
        | Except.ok (msgs, acc) => Except.ok (msgs, r :: acc)

def parse_document_describes (docId : Option String) (ids : List String)
    (created : List Relationship) : Except PyErr (List Relationship) :=
  match parse_document_describes_loop docId created ids with
  | Except.error e => Except.error e
  | Except.ok (msgs, acc) =>
    if msgs.isEmpty then Except.ok acc
    else Except.error (PyErr.parsingMsgs
      ["Error while creating describes_relationship : " ++ joinMsgs msgs])

/-- Inner loop of RelationshipParser.parse_has_files over one hasFiles list. -/
def has_files_file_loop (pkgId : Option String) (created : List Relationship) :
    List String → Except PyErr (List String × List Relationship)
  | [] => Except.ok ([], [])
  | f :: rest =>
    match relationship_construct pkgId RelationshipType.CONTAINS (some f) none with
    | Except.error ms =>
      match has_files_file_loop pkgId created rest with
      | Except.error e => Except.error e
      | Except.ok (msgs, acc) => Except.ok (joinMsgs ms :: msgs, acc)
    | Except.ok r =>
      match check_if_relationship_exists r created with
      | none => Except.error PyErr.keyError
      | some true => has_files_file_loop pkgId created rest
      | some false =>
        match has_files_file_loop pkgId created rest with
        | Except.error e => Except.error e
        | Except.ok (msgs, acc) => Except.ok (msgs, r :: acc)

def parse_has_files_loop (created : List Relationship) :
    List PkgDict → Except PyErr (List String × List Relationship)
  | [] => Except.ok ([], [])
  | p :: rest =>
    if p.hasFiles.isEmpty then parse_has_files_loop created rest
    else
      match has_files_file_loop p.SPDXID created p.hasFiles with
      | Except.error e => Except.error e
      | Except.ok (m1, r1) =>
        match parse_has_files_loop created rest with
        | Except.error e => Except.error e
        | Except.ok (m2, r2) => Except.ok (m1 ++ m2, r1 ++ r2)

/-- RelationshipParser.parse_has_files; the error banner reuses the
describes wording exactly as the source does. -/
def parse_has_files (pkgs : List PkgDict) (created : List Relationship) :
    Except PyErr (List Relationship) :=
  match parse_has_files_loop created pkgs with
  | Except.error e => Except.error e
  | Except.ok (msgs, acc) =>
    if msgs.isEmpty then Except.ok acc
    else Except.error (PyErr.parsingMsgs
      ["Error while creating describes_relationship : " ++ joinMsgs msgs])

/-- The DEPENDENCY_OF edges contributed by one file dict: one edge per
dependency entry, oriented from the dependency id to the dependent file. -/
def dependency_edges (f : FileDict) : List Relationship :=
  match f.SPDXID with
  | some fid => f.fileDependencies.map (fun dep =>
      { spdx_element_id := SpdxRef.ref dep, relationship_type := RelationshipType.DEPENDENCY_OF,
        related_spdx_element_id := SpdxRef.ref fid, comment := none })
  | none => []

/-- Inner loop of RelationshipParser.parse_file_dependencies: every
successfully constructed edge is appended, with no duplicate check of any
kind. -/
def file_dependencies_loop (fid : Option String) :
    List String → List String × List Relationship
  | [] => ([], [])
  | dep :: rest =>
    let pr := file_dependencies_loop fid rest
    match relationship_construct (some dep) RelationshipType.DEPENDENCY_OF fid none with
    | Except.error ms => (ms ++ pr.1, pr.2)
    | Except.ok r => (pr.1, r :: pr.2)

def parse_file_dependencies_loop : List FileDict → List String × List Relationship
  | [] => ([], [])
  | f :: rest =>
    if f.fileDependencies.isEmpty then parse_file_dependencies_loop rest
    else
      let p1 := file_dependencies_loop f.SPDXID f.fileDependencies
      let p2 := parse_file_dependencies_loop rest
      (p1.1 ++ p2.1, p1.2 ++ p2.2)

def parse_file_dependencies (files : List FileDict) : Except PyErr (List Relationship) :=
  let pr := parse_file_dependencies_loop files
  if pr.1.isEmpty then Except.ok pr.2
  else Except.error (PyErr.parsingMsgs
    ["Error while creating dependency relationships: " ++ joinMsgs pr.1])

/-- RelationshipParser.parse_artifact_of: recognized as unsupported by design
and always empty. -/
def parse_artifact_of (_files : List FileDict) : List Relationship := []

/-- RelationshipParser.parse_all_relationships. Each phase is attempted in
order; an SPDXParsingError from a phase is caught and its payload extended
into the instance logger — except that extending with the boolean payload
that parse_relationships raises is itself a TypeError, which escapes. Any
other exception (KeyError from an inverse-less lookup) also escapes. -/
def parse_all_relationships (doc : InputDoc) : Except PyErr (List Relationship) :=
  let st1 : Except PyErr (List String × List Relationship) :=
    if doc.relationships.isEmpty then Except.ok ([], [])
    else
      match parse_relationships doc.relationships with
      | Except.ok rs => Except.ok ([], rs)
      | Except.error (PyErr.parsingMsgs ms) => Except.ok (ms, [])
      | Except.error (PyErr.parsingBool _) => Except.error PyErr.typeError
      | Except.error e => Except.error e
  match st1 with
  | Except.error e => Except.error e
  | Except.ok (log1, rels1) =>
    let st2 : Except PyErr (List String × List Relationship) :=
      if doc.documentDescribes.isEmpty then Except.ok (log1, rels1)
      else
        match parse_document_describes doc.SPDXID doc.documentDescribes rels1 with
        | Except.ok rs => Except.ok (log1, rels1 ++ rs)
        | Except.error (PyErr.parsingMsgs ms) => Except.ok (log1 ++ ms, rels1)
        | Except.error (PyErr.parsingBool _) => Except.error PyErr.typeError
        | Except.error e => Except.error e
    match st2 with
    | Except.error e => Except.error e
    | Except.ok (log2, rels2) =>
      let st3 : Except PyErr (List String × List Relationship) :=
        if doc.packages.isEmpty then Except.ok (log2, rels2)
        else
          match parse_has_files doc.packages rels2 with
          | Except.ok rs => Except.ok (log2, rels2 ++ rs)
          | Except.error (PyErr.parsingMsgs ms) => Except.ok (log2 ++ ms, rels2)
          | Except.error (PyErr.parsingBool _) => Except.error PyErr.typeError
          | Except.error e => Except.error e
      match st3 with
      | Except.error e => Except.error e
      | Except.ok (log3, rels3) =>
        let st4 : Except PyErr (List String × List Relationship) :=
          if doc.files.isEmpty then Except.ok (log3, rels3)
          else
            match parse_file_dependencies doc.files with
            | Except.ok rs => Except.ok (log3, rels3 ++ rs)
            | Except.error (PyErr.parsingMsgs ms) => Except.ok (log3 ++ ms, rels3)
            | Except.error (PyErr.parsingBool _) => Except.error PyErr.typeError
            | Except.error e => Except.error e
        match st4 with
        | Except.error e => Except.error e
        | Except.ok (log4, rels4) =>
          if log4.isEmpty then Except.ok rels4
          else Except.error (PyErr.parsingMsgs log4)

/-- Follows the wording of claim C5, not the source: the duplicate test with
comments ignored on BOTH sides, inverse-aware. Kept for comparison with
check_if_relationship_exists. -/
def spec_duplicate_test (r : Relationship) (created : List Relationship) : Bool :=
  let strip : Relationship → Relationship := fun x =>
    { spdx_element_id := x.spdx_element_id, relationship_type := x.relationship_type,
      related_spdx_element_id := x.related_spdx_element_id, comment := none }
  decide (strip r ∈ created.map strip) ||
    (match convert_relationship_types r.relationship_type with
     | some t => decide (({ spdx_element_id := r.related_spdx_element_id,
                            relationship_type := t,
                            related_spdx_element_id := r.spdx_element_id,
                            comment := none } : Relationship) ∈ created.map strip)
     | none => false)

/- ===== Tag/value grammar engine
   (src/src/spdx/parser/tagvalue/parser/tagvalue.py) ===== -/

/-- The element kinds that the modelled fragment of the grammar engine can
hold as the class tag of the current element. The source additionally has a
Relationship element class; no modelled tag opens one, so it is omitted from
the fragment, while synthesized Relationship values still populate the
relationships collection. Annot stands for the Annotation class of the
source. -/
inductive SpdxClass where
  | File
  | Package
  | Snippet
  | Annot
  | ExtractedLicensingInfo
deriving DecidableEq

def className : SpdxClass → String
  | SpdxClass.File => "File"
  | SpdxClass.Package => "Package"
  | SpdxClass.Snippet => "Snippet"
  | SpdxClass.Annot => "Annotation"
  | SpdxClass.ExtractedLicensingInfo => "ExtractedLicensingInfo"

/-- The ELEMENT_EXPECTED_START_TAG table. -/
def expected_start_tag : SpdxClass → String
  | SpdxClass.File => "FileName"
  | SpdxClass.Package => "PackageName"
  | SpdxClass.Snippet => "SnippetSPDXID"
  | SpdxClass.Annot => "Annotator"
  | SpdxClass.ExtractedLicensingInfo => "LicenseID"

/-- The two sentinel values SpdxNone and SpdxNoAssertion. -/
inductive Sentinel where
  | spdxNone
  | noAssertion
deriving DecidableEq

/-- File type enum members of the file_type_value grammar rule. -/
inductive FileType where
  | SOURCE | BINARY | ARCHIVE | APPLICATION | AUDIO | IMAGE
  | TEXT | VIDEO | DOCUMENTATION | SPDX | OTHER
deriving DecidableEq

/-- Elementary values appended into repeatable accumulator fields: plain
strings, single file types, and license expressions (kept as their text, the
expression parser being external). -/
inductive Atom where
  | str (s : String)
  | fileType (t : FileType)
  | license (e : String)
deriving DecidableEq

/-- The values a field of an untyped accumulator dictionary can hold in the
modelled fragment: strings, sentinels, the parsed verification code pair, and
Python lists of elementary values (lists in this fragment only ever hold
elementary values). -/
inductive Value where
  | str (s : String)
  | sentinel (x : Sentinel)
  | verif (code : String) (excludes : Option (List String))
  | list (elems : List Atom)
deriving DecidableEq

/-- A Python dict with string keys, as an association list with unique keys;
updates keep the original position, new keys append at the end, matching
dict insertion-order semantics. -/
abbrev Dict : Type := List (String × Value)

def dictSet (d : Dict) (k : String) (v : Value) : Dict :=
  match d with
  | [] => [(k, v)]
  | (k0, v0) :: rest => if k0 = k then (k0, v) :: rest else (k0, v0) :: dictSet rest k v

def dictGet (d : Dict) (k : String) : Option Value :=
  match d with
  | [] => none
  | (k0, v0) :: rest => if k0 = k then some v0 else dictGet rest k

def dictMember (d : Dict) (k : String) : Bool :=
  (dictGet d k).isSome

/-- Python setdefault(k, []).append(v): create a one-element list when the key
is absent, extend when it holds a list, and raise AttributeError when it holds
anything else (sentinels and strings have no append method). -/
def dict_setdefault_append (d : Dict) (k : String) (v : Atom) : Except PyErr Dict :=
  match dictGet d k with
  | none => Except.ok (dictSet d k (Value.list [v]))
  | some (Value.list l) => Except.ok (dictSet d k (Value.list (l ++ [v])))
  | some _ => Except.error PyErr.attributeError

/-- A finalized File element. Modelled from the spec: the typed-construction
collaborator is not under src; File requires its identifying name and the
separately attached id, and keeps its ordered file_type list. Fields of the
accumulator outside the modelled fragment are dropped. -/
structure SpdxFile where
  name : String
  spdx_id : String
  file_type : List FileType
deriving DecidableEq

/-- A finalized Package element, modelled from the spec like SpdxFile. -/
structure SpdxPackage where
  name : String
  spdx_id : String
deriving DecidableEq

/-- The elements_build dictionary: each collection key exists only once the
engine has touched it, hence the Option; an absent key reads as a KeyError in
the source. -/
structure ElementsBuild where
  files : Option (List SpdxFile) := none
  packages : Option (List SpdxPackage) := none
  relationships : Option (List Relationship) := none
  snippets : Option (List Dict) := none
  annots : Option (List Dict) := none
  extracted_licensing_info : Option (List Dict) := none
deriving DecidableEq

/-- The whole mutable state of one Parser instance: the document-level logger,
the element stack of identities, the current element (its class tag and local
logger held apart from the field dict, mirroring the class and logger dict
keys of the source), the creation-info dict with its own logger, and the
finalized collections. -/
structure ParserState where
  logger : List String
  element_stack : List (SpdxClass × Value)
  current_class : Option SpdxClass
  current_element : Dict
  current_logger : List String
  creation_info : Dict
  creation_logger : List String
  elements_build : ElementsBuild
deriving DecidableEq

def init_state : ParserState :=
  { logger := [], element_stack := [], current_class := none, current_element := [],
    current_logger := [], creation_info := [], creation_logger := [],
    elements_build := {} }

def scope_error_message (c : SpdxClass) : String :=
  "Element " ++ className c ++ " is not the current element in scope, probably " ++
  "the expected tag to start the element (" ++ expected_start_tag c ++ ") is missing."

/-- check_that_current_element_matches_class_for_value: both source branches
(no class key, or a different class) append the same document-level message;
in neither case is the following field write of the caller prevented. -/
def check_that_current_element_matches_class_for_value
    (expected : SpdxClass) (s : ParserState) : ParserState :=
  if s.current_class = some expected then s
  else { s with logger := s.logger ++ [scope_error_message expected] }

def requireStr (cls fld : String) (v : Option Value) : Except (List String) String :=
  match v with
  | some (Value.str s) => Except.ok s
  | _ => Except.error ["SetterError " ++ cls ++ ": required field " ++ fld ++
                       " is missing or has the wrong type"]

def collect2 {α β : Type} :
    Except (List String) α → Except (List String) β → Except (List String) (α × β)
  | Except.ok a, Except.ok b => Except.ok (a, b)
  | Except.error e, Except.ok _ => Except.error e
  | Except.ok _, Except.error e => Except.error e
  | Except.error e1, Except.error e2 => Except.error (e1 ++ e2)

def atomFileTypes : List Atom → Option (List FileType)
  | [] => some []
  | Atom.fileType t :: rest => (atomFileTypes rest).map (fun ts => t :: ts)
  | _ :: _ => none

/-- Modelled from the spec: typed construction of a File from the accumulator
dict, one error per invalid field. -/
def constructFile (d : Dict) : Except (List String) SpdxFile :=
  match collect2 (requireStr "File" "name" (dictGet d "name"))
      (requireStr "File" "spdx_id" (dictGet d "spdx_id")) with
  | Except.error e => Except.error e
  | Except.ok (n, i) =>
    match dictGet d "file_type" with
    | none => Except.ok { name := n, spdx_id := i, file_type := [] }
    | some (Value.list vs) =>
      match atomFileTypes vs with
      | some ts => Except.ok { name := n, spdx_id := i, file_type := ts }
      | none => Except.error ["SetterError File: file_type entries have the wrong type"]
    | some _ => Except.error ["SetterError File: file_type must be a list"]

/-- Modelled from the spec: typed construction of a Package. -/
def constructPackage (d : Dict) : Except (List String) SpdxPackage :=
  match collect2 (requireStr "Package" "name" (dictGet d "name"))
      (requireStr "Package" "spdx_id" (dictGet d "spdx_id")) with
  | Except.error e => Except.error e
  | Except.ok (n, i) => Except.ok { name := n, spdx_id := i }

/-- Modelled from the spec: the remaining kinds are kept as their raw field
dicts; construction checks that the identifying field of the kind is present. -/
def constructRaw (idField : String) (cname : String) (d : Dict) : Except (List String) Dict :=
  if dictMember d idField then Except.ok d
  else Except.error ["SetterError " ++ cname ++ ": required field " ++ idField ++ " is missing"]

/-- The setdefault on elements_build that runs while evaluating the append
call, before typed construction is attempted: the collection key for the class
comes into existence (empty) even when construction then fails. -/
def ensure_collection (eb : ElementsBuild) : SpdxClass → ElementsBuild
  | SpdxClass.File => { eb with files := some (eb.files.getD []) }
  | SpdxClass.Package => { eb with packages := some (eb.packages.getD []) }
  | SpdxClass.Snippet => { eb with snippets := some (eb.snippets.getD []) }
  | SpdxClass.Annot => { eb with annots := some (eb.annots.getD []) }
  | SpdxClass.ExtractedLicensingInfo =>
    { eb with extracted_licensing_info := some (eb.extracted_licensing_info.getD []) }

def eb_add_file (eb : ElementsBuild) (f : SpdxFile) : ElementsBuild :=
  { eb with files := some (eb.files.getD [] ++ [f]) }

def eb_add_package (eb : ElementsBuild) (p : SpdxPackage) : ElementsBuild :=
  { eb with packages := some (eb.packages.getD [] ++ [p]) }

def eb_add_snippet (eb : ElementsBuild) (d : Dict) : ElementsBuild :=
  { eb with snippets := some (eb.snippets.getD [] ++ [d]) }

def eb_add_annot (eb : ElementsBuild) (d : Dict) : ElementsBuild :=
  { eb with annots := some (eb.annots.getD [] ++ [d]) }

def eb_add_extracted (eb : ElementsBuild) (d : Dict) : ElementsBuild :=
  { eb with extracted_licensing_info := some (eb.extracted_licensing_info.getD [] ++ [d]) }

def element_error_message (c : SpdxClass) (msgs : List String) : String :=
  "Error while parsing " ++ className c ++ ": " ++ joinMsgs msgs

def construct_error_message (cname : String) (msgs : List String) : String :=
  "Error while constructing " ++ cname ++ ": " ++ joinMsgs msgs

def resetCurrent (s : ParserState) : ParserState :=
  { s with current_class := none, current_element := [], current_logger := [] }

/-- check_for_preceding_package_and_build_contains_relationship, transcribed
with its reads in source order: the file id is read from the still-populated
current element; a missing packages key returns silently; the candidate edge
is then tested for membership in the relationships collection — a read that
raises KeyError when no relationship was ever recorded, because the setdefault
that would create the key only runs in the append branch. A missing or
non-string current id cannot follow a successful File construction; the
source would raise there too, rendered as keyError. -/
def check_for_preceding_package_and_build_contains_relationship
    (s : ParserState) : Except PyErr ParserState :=
  match dictGet s.current_element "spdx_id" with
  | some (Value.str fid) =>
    match s.elements_build.packages with
    | none => Except.ok s
    | some pkgs =>
      match pkgs.getLast? with
      | none => Except.error PyErr.indexError
      | some pkg =>
        let rel : Relationship :=
          { spdx_element_id := SpdxRef.ref pkg.spdx_id,
            relationship_type := RelationshipType.CONTAINS,
            related_spdx_element_id := SpdxRef.ref fid, comment := none }
        match s.elements_build.relationships with
        | none => Except.error PyErr.keyError
        | some rels =>
          if rel ∈ rels then Except.ok s
          else
            Except.ok { s with elements_build :=
              { s.elements_build with relationships := some (rels ++ [rel]) } }
  | some _ => Except.error PyErr.keyError
  | none => Except.error PyErr.keyError

/-- construct_current_element: no class means only a reset; a non-empty local
logger folds upward (tagged with the kind) and discards the accumulator;
otherwise the collection key is ensured, typed construction is attempted
(failures fold upward), and a successful File additionally triggers
implicit-containment synthesis whose KeyError escapes uncaught. -/
def construct_current_element (s : ParserState) : Except PyErr ParserState :=
  match s.current_class with
  | none => Except.ok (resetCurrent s)
  | some c =>
    if s.current_logger.isEmpty then
      let s1 := { s with elements_build := ensure_collection s.elements_build c }
      match c with
      | SpdxClass.File =>
        match constructFile s1.current_element with
        | Except.error ms =>
          Except.ok (resetCurrent { s1 with
            logger := s1.logger ++ [construct_error_message "File" ms] })
        | Except.ok f =>
          let s2 := { s1 with elements_build := eb_add_file s1.elements_build f }
          match check_for_preceding_package_and_build_contains_relationship s2 with
          | Except.error e => Except.error e
          | Except.ok s3 => Except.ok (resetCurrent s3)
      | SpdxClass.Package =>
        match constructPackage s1.current_element with
        | Except.error ms =>
          Except.ok (resetCurrent { s1 with
            logger := s1.logger ++ [construct_error_message "Package" ms] })
        | Except.ok pk =>
          Except.ok (resetCurrent { s1 with elements_build := eb_add_package s1.elements_build pk })
      | SpdxClass.Snippet =>
        match constructRaw "spdx_id" "Snippet" s1.current_element with
        | Except.error ms =>
          Except.ok (resetCurrent { s1 with
            logger := s1.logger ++ [construct_error_message "Snippet" ms] })
        | Except.ok d =>
          Except.ok (resetCurrent { s1 with elements_build := eb_add_snippet s1.elements_build d })
      | SpdxClass.Annot =>
        match constructRaw "annotator" "Annotation" s1.current_element with
        | Except.error ms =>
          Except.ok (resetCurrent { s1 with
            logger := s1.logger ++ [construct_error_message "Annotation" ms] })
        | Except.ok d =>
          Except.ok (resetCurrent { s1 with elements_build := eb_add_annot s1.elements_build d })
      | SpdxClass.ExtractedLicensingInfo =>
        match constructRaw "license_id" "ExtractedLicensingInfo" s1.current_element with
        | Except.error ms =>
          Except.ok (resetCurrent { s1 with
            logger := s1.logger ++ [construct_error_message "ExtractedLicensingInfo" ms] })
        | Except.ok d =>
          Except.ok (resetCurrent { s1 with elements_build := eb_add_extracted s1.elements_build d })
    else
      Except.ok (resetCurrent { s with
        logger := s.logger ++ [element_error_message c s.current_logger] })

/-- The identity push at the top of the source initialize_new_current_element:
a current element that has both class and id is recorded on the stack. -/
def element_stack_push (s : ParserState) : ParserState :=
  match s.current_class, dictGet s.current_element "spdx_id" with
  | some c0, some v => { s with element_stack := s.element_stack ++ [(c0, v)] }
  | _, _ => s

/-- Source name initialize_new_current_element: push the identity of a
current element that has both class and id onto the stack, finalize it, and
open the new class. -/
def begin_new_current_element (c : SpdxClass) (s : ParserState) : Except PyErr ParserState :=
  match construct_current_element (element_stack_push s) with
  | Except.error e => Except.error e
  | Except.ok s1 => Except.ok { s1 with current_class := some c }

/-- p_spdx_id: the target of an SPDXID tag depends solely on whether the
creation-info dict already holds an spdx_id key, not on whether an element
has been opened. -/
def p_spdx_id (s : ParserState) (v : String) : ParserState :=
  if dictMember s.creation_info "spdx_id" then
    { s with current_element := dictSet s.current_element "spdx_id" (Value.str v) }
  else
    { s with creation_info := dictSet s.creation_info "spdx_id" (Value.str v) }

/-- p_doc_name: DocumentName writes into the creation-info dict. -/
def p_doc_name (s : ParserState) (v : String) : ParserState :=
  { s with creation_info := dictSet s.creation_info "name" (Value.str v) }

/-- p_package_name: start tag of a Package element. -/
def p_package_name (s : ParserState) (v : String) : Except PyErr ParserState :=
  match begin_new_current_element SpdxClass.Package s with
  | Except.error e => Except.error e
  | Except.ok s1 =>
    Except.ok { s1 with current_element := dictSet s1.current_element "name" (Value.str v) }

/-- p_file_name: start tag of a File element. -/
def p_file_name (s : ParserState) (v : String) : Except PyErr ParserState :=
  match begin_new_current_element SpdxClass.File s with
  | Except.error e => Except.error e
  | Except.ok s1 =>
    Except.ok { s1 with current_element := dictSet s1.current_element "name" (Value.str v) }

/-- p_file_comment: the scope check runs but its outcome never guards the
write; the comment field of whatever accumulator is open is set. -/
def p_file_comment (s : ParserState) (v : String) : ParserState :=
  let s1 := check_that_current_element_matches_class_for_value SpdxClass.File s
  { s1 with current_element := dictSet s1.current_element "comment" (Value.str v) }

/-- p_file_type: scope check, then setdefault-append of the enum value. -/
def p_file_type (s : ParserState) (t : FileType) : Except PyErr ParserState :=
  let s1 := check_that_current_element_matches_class_for_value SpdxClass.File s
  match dict_setdefault_append s1.current_element "file_type" (Atom.fileType t) with
  | Except.error e => Except.error e
  | Except.ok d => Except.ok { s1 with current_element := d }

/-- A license_or_no_assertion_or_none value as delivered by the grammar. -/
inductive LicenseValue where
  | license (e : String)
  | noAssertion
  | none_
deriving DecidableEq

/-- p_file_license_info: a sentinel value overwrites the field outright; a
concrete expression goes through setdefault-append, which raises
AttributeError when the field currently holds a sentinel. -/
def p_file_license_info (s : ParserState) (v : LicenseValue) : Except PyErr ParserState :=
  let s1 := check_that_current_element_matches_class_for_value SpdxClass.File s
  match v with
  | LicenseValue.none_ =>
    Except.ok { s1 with
      current_element := dictSet s1.current_element "license_info_in_file" (Value.sentinel Sentinel.spdxNone) }
  | LicenseValue.noAssertion =>
    Except.ok { s1 with
      current_element := dictSet s1.current_element "license_info_in_file" (Value.sentinel Sentinel.noAssertion) }
  | LicenseValue.license e =>
    match dict_setdefault_append s1.current_element "license_info_in_file" (Atom.license e) with
    | Except.error er => Except.error er
    | Except.ok d => Except.ok { s1 with current_element := d }

/-- p_pkg_license_info_from_file: same shape as the file handler, on the
license_info_from_files field of a Package. -/
def p_pkg_license_info_from_file (s : ParserState) (v : LicenseValue) : Except PyErr ParserState :=
  let s1 := check_that_current_element_matches_class_for_value SpdxClass.Package s
  match v with
  | LicenseValue.none_ =>
    Except.ok { s1 with
      current_element := dictSet s1.current_element "license_info_from_files" (Value.sentinel Sentinel.spdxNone) }
  | LicenseValue.noAssertion =>
    Except.ok { s1 with
      current_element := dictSet s1.current_element "license_info_from_files" (Value.sentinel Sentinel.noAssertion) }
  | LicenseValue.license e =>
    match dict_setdefault_append s1.current_element "license_info_from_files" (Atom.license e) with
    | Except.error er => Except.error er
    | Except.ok d => Except.ok { s1 with current_element := d }

def is_lower_hex (c : Char) : Bool :=
  (decide ('0' ≤ c) && decide (c ≤ '9')) || (decide ('a' ≤ c) && decide (c ≤ 'f'))

/-- The chars of one excludes group: the regex fragment requires a nonempty
greedy run ending at the last closing parenthesis of the remainder (the dot
of the pattern never meets a newline on a LINE token). -/
def before_last_close (cs : List Char) : Option (List Char) :=
  let tailLen := (cs.reverse.takeWhile (fun c => decide (c ≠ ')'))).length
  if tailLen = cs.length then none
  else some (cs.take (cs.length - tailLen - 1))

/-- The optional excludes group of the verification-code pattern: a literal
open-parenthesis-excludes-colon, optional whitespace, then a nonempty body
closed by the last closing parenthesis; the body is split on commas. -/
def excludes_group (cs : List Char) : Option (List String) :=
  if cs.take 10 = "(excludes:".data then
    let inner := (cs.drop 10).dropWhile Char.isWhitespace
    match before_last_close inner with
    | some grp => if grp.isEmpty then none else some ((String.mk grp).splitOn ",")
    | none => none
  else none

/-- The anchored match of the verification-code pattern: a nonempty run of
lowercase hex digits, optional whitespace, then the optional excludes group;
no match at all when the value does not begin with a lowercase hex digit. -/
def verif_code_match (v : String) : Option (String × Option (List String)) :=
  let hex := v.data.takeWhile is_lower_hex
  if hex.isEmpty then none
  else
    let rest := (v.data.dropWhile is_lower_hex).dropWhile Char.isWhitespace
    some (String.mk hex, excludes_group rest)

/-- p_pkg_verification_code: the match result is dereferenced without a None
check, so a value that fails the pattern raises an uncaught AttributeError. -/
def p_pkg_verification_code (s : ParserState) (v : String) : Except PyErr ParserState :=
  let s1 := check_that_current_element_matches_class_for_value SpdxClass.Package s
  match verif_code_match v with
  | none => Except.error PyErr.attributeError
  | some (code, excl) =>
    Except.ok { s1 with
      current_element := dictSet s1.current_element "verification_code" (Value.verif code excl) }

/-- Source name p_annotation_spdx_id: the one value handler with no scope
check at all; it writes the spdx_id of whatever accumulator is current. -/
def p_annot_spdx_id (s : ParserState) (v : String) : ParserState :=
  { s with current_element := dictSet s.current_element "spdx_id" (Value.str v) }

/-- The terminals of the modelled grammar fragment, one constructor per
handled tag, each carrying its already-lexed value. -/
inductive Tag where
  | spdxId (v : String)
  | docName (v : String)
  | packageName (v : String)
  | fileName (v : String)
  | fileType (t : FileType)
  | fileComment (v : String)
  | fileLicsInfo (v : LicenseValue)
  | pkgLicsFromFile (v : LicenseValue)
  | pkgVerifCode (v : String)
  | annotSpdxId (v : String)
deriving DecidableEq

def step (s : ParserState) : Tag → Except PyErr ParserState
  | Tag.spdxId v => Except.ok (p_spdx_id s v)
  | Tag.docName v => Except.ok (p_doc_name s v)
  | Tag.packageName v => p_package_name s v
  | Tag.fileName v => p_file_name s v
  | Tag.fileType t => p_file_type s t
  | Tag.fileComment v => Except.ok (p_file_comment s v)
  | Tag.fileLicsInfo v => p_file_license_info s v
  | Tag.pkgLicsFromFile v => p_pkg_license_info_from_file s v
  | Tag.pkgVerifCode v => p_pkg_verification_code s v
  | Tag.annotSpdxId v => Except.ok (p_annot_spdx_id s v)

def run_tags_from (s : ParserState) : List Tag → Except PyErr ParserState
  | [] => Except.ok s
  | t :: ts =>
    match step s t with
    | Except.error e => Except.error e
    | Except.ok s1 => run_tags_from s1 ts

/-- One pass of the grammar engine over a terminal stream, from the fresh
state of a Parser instance. -/
def run_tags (ts : List Tag) : Except PyErr ParserState :=
  run_tags_from init_state ts

/-- Modelled from the spec, section 3: the creation-info record with its
required fields; optional fields outside the fragment are dropped. -/
structure CreationInfo where
  spdx_version : String
  spdx_id : String
  name : String
  document_namespace : String
  data_license : String
  creators : List String
  created : String
deriving DecidableEq

def atomStrs : List Atom → Option (List String)
  | [] => some []
  | Atom.str s :: rest => (atomStrs rest).map (fun ss => s :: ss)
  | _ :: _ => none

/-- Modelled from the spec: typed construction of CreationInfo, one error per
invalid or missing required field. -/
def constructCreationInfo (d : Dict) : Except (List String) CreationInfo :=
  match collect2 (requireStr "CreationInfo" "spdx_version" (dictGet d "spdx_version"))
      (collect2 (requireStr "CreationInfo" "spdx_id" (dictGet d "spdx_id"))
        (collect2 (requireStr "CreationInfo" "name" (dictGet d "name"))
          (collect2 (requireStr "CreationInfo" "document_namespace" (dictGet d "document_namespace"))
            (collect2 (requireStr "CreationInfo" "data_license" (dictGet d "data_license"))
              (requireStr "CreationInfo" "created" (dictGet d "created")))))) with
  | Except.error e => Except.error e
  | Except.ok (ver, (sid, (nm, (ns, (dl, cr))))) =>
    match dictGet d "creators" with
    | some (Value.list vs) =>
      match atomStrs vs with
      | some ss =>
        Except.ok { spdx_version := ver, spdx_id := sid, name := nm,
                    document_namespace := ns, data_license := dl,
                    creators := ss, created := cr }
      | none => Except.error ["SetterError CreationInfo: creators entries have the wrong type"]
    | _ => Except.error ["SetterError CreationInfo: required field creators is missing"]

/-- Modelled from the spec: the assembled immutable document. -/
structure Document where
  creation_info : CreationInfo
  files : List SpdxFile
  packages : List SpdxPackage
  relationships : List Relationship
  snippets : List Dict
  annots : List Dict
  extracted_licensing_info : List Dict
deriving DecidableEq

/-- Modelled from the spec: Document construction from typed collections
always succeeds once creation info is typed. -/
def constructDocument (ci : CreationInfo) (eb : ElementsBuild) : Document :=
  { creation_info := ci, files := eb.files.getD [], packages := eb.packages.getD [],
    relationships := eb.relationships.getD [], snippets := eb.snippets.getD [],
    annots := eb.annots.getD [], extracted_licensing_info := eb.extracted_licensing_info.getD [] }

/-- The creation-info logger is popped and folded (as one tagged entry) into
the document-level logger, exactly at the start of the epilogue of parse. -/
def merge_creation_logger (s : ParserState) : ParserState :=
  if s.creation_logger.isEmpty then s
  else { s with
    logger := s.logger ++ ["Error while parsing CreationInfo: " ++ joinMsgs s.creation_logger],
    creation_logger := [] }

/-- The state of the parser after the terminal stream is exhausted: the open
accumulator is finalized and the creation-info logger folded upward. Any
exception escaping finalization aborts the parse here. -/
def finalize_state (ts : List Tag) : Except PyErr ParserState :=
  match run_tags ts with
  | Except.error e => Except.error e
  | Except.ok s =>
    match construct_current_element s with
    | Except.error e => Except.error e
    | Except.ok s1 => Except.ok (merge_creation_logger s1)

/-- Parser.parse: run the stream, finalize, fold the creation logger, raise
with the full ordered document-level message list when it is non-empty, and
only then attempt typed construction of creation info and document — each of
which can itself raise. -/
def parse (ts : List Tag) : Except PyErr Document :=
  match finalize_state ts with
  | Except.error e => Except.error e
  | Except.ok s =>
    if s.logger.isEmpty then
      match constructCreationInfo s.creation_info with
      | Except.error ms =>
        Except.error (PyErr.parsingMsgs [construct_error_message "CreationInfo" ms])
      | Except.ok ci => Except.ok (constructDocument ci s.elements_build)
    else Except.error (PyErr.parsingMsgs s.logger)

/-- A value begins with a lowercase hexadecimal digit; the verification-code
pattern can only match when this holds. -/
def begins_with_lower_hex (v : String) : Bool :=
  match v.data with
  | [] => false
  | c :: _ => is_lower_hex c

/-- Recognizer for SPDXID terminals, used to state the order-sensitivity of
their target. -/
def is_spdx_id_tag : Tag → Bool
  | Tag.spdxId _ => true
  | _ => false

/-- A state with an open Package accumulator holding only its name, as left
by a PackageName start tag after the document id was set. -/
def package_open_state : ParserState :=
  { logger := [], element_stack := [], current_class := some SpdxClass.Package,
    current_element := [("name", Value.str "P")], current_logger := [],
    creation_info := [("spdx_id", Value.str "SPDXRef-DOCUMENT")], creation_logger := [],
    elements_build := {} }

/-- The six-line example input of the implicit-containment property. -/
def c2_input : List Tag :=
  [Tag.spdxId "D", Tag.packageName "P", Tag.spdxId "SPDXRef-P",
   Tag.fileName "f.c", Tag.spdxId "SPDXRef-f", Tag.fileType FileType.SOURCE]

/-- Two relationship entries whose relationshipType strings both fail the
enum lookup. -/
def c3_input : List RelDict :=
  [{ spdxElementId := some "SPDXRef-A", relatedSpdxElement := some "SPDXRef-B",
     relationshipType := some "INVALID_TYPE", comment := none },
   { spdxElementId := some "SPDXRef-C", relatedSpdxElement := some "SPDXRef-D",
     relationshipType := some "ALSO_BAD", comment := none }]

/-- A mapping-shaped document whose only content is the two malformed
relationship entries. -/
def c3_doc : InputDoc :=
  { relationships := c3_input, documentDescribes := [], SPDXID := none,
    packages := [], files := [] }

/-- A mapping-shaped document that repeats one documentDescribes id. -/
def c4_doc : InputDoc :=
  { relationships := [], documentDescribes := ["SPDXRef-B", "SPDXRef-B"],
    SPDXID := some "SPDXRef-DOC", packages := [], files := [] }

/-- A candidate edge carrying a comment. -/
def c5_candidate : Relationship :=
  { spdx_element_id := SpdxRef.ref "SPDXRef-A",
    relationship_type := RelationshipType.DESCRIBES,
    related_spdx_element_id := SpdxRef.ref "SPDXRef-B", comment := some "a comment" }

/-- One existing relationship equal to the candidate up to comments. -/
def c5_existing : List Relationship :=
  [{ spdx_element_id := SpdxRef.ref "SPDXRef-A",
     relationship_type := RelationshipType.DESCRIBES,
     related_spdx_element_id := SpdxRef.ref "SPDXRef-B", comment := none }]

/-- A comment-free candidate and empty collection, used to instantiate the
comment-free agreement of the duplicate tests. -/
def c5_plain_candidate : Relationship :=
  { spdx_element_id := SpdxRef.ref "SPDXRef-A",
    relationship_type := RelationshipType.DESCRIBES,
    related_spdx_element_id := SpdxRef.ref "SPDXRef-B", comment := none }

/-- An open File whose license-info field already holds the none sentinel. -/
def file_sentinel_state : ParserState :=
  { logger := [], element_stack := [], current_class := some SpdxClass.File,
    current_element := [("name", Value.str "f.c"),
                        ("license_info_in_file", Value.sentinel Sentinel.spdxNone)],
    current_logger := [], creation_info := [("spdx_id", Value.str "SPDXRef-DOCUMENT")],
    creation_logger := [], elements_build := {} }

/-- An open File whose license-info field already holds one concrete entry. -/
def file_concrete_state : ParserState :=
  { logger := [], element_stack := [], current_class := some SpdxClass.File,
    current_element := [("name", Value.str "f.c"),
                        ("license_info_in_file", Value.list [Atom.license "MIT"])],
    current_logger := [], creation_info := [("spdx_id", Value.str "SPDXRef-DOCUMENT")],
    creation_logger := [], elements_build := {} }

/-- An open Package whose license-info-from-files field holds the sentinel. -/
def package_sentinel_state : ParserState :=
  { logger := [], element_stack := [], current_class := some SpdxClass.Package,
    current_element := [("name", Value.str "P"),
                        ("license_info_from_files", Value.sentinel Sentinel.noAssertion)],
    current_logger := [], creation_info := [("spdx_id", Value.str "SPDXRef-DOCUMENT")],
    creation_logger := [], elements_build := {} }

/-- An open Package whose license-info-from-files field holds one entry. -/
def package_concrete_state : ParserState :=
  { logger := [], element_stack := [], current_class := some SpdxClass.Package,
    current_element := [("name", Value.str "P"),
                        ("license_info_from_files", Value.list [Atom.license "MIT"])],
    current_logger := [], creation_info := [("spdx_id", Value.str "SPDXRef-DOCUMENT")],
    creation_logger := [], elements_build := {} }

/-- An input that finishes with an empty document-level aggregator but an
incomplete creation info. -/
def c7_input : List Tag := [Tag.spdxId "SPDXRef-DOCUMENT"]

/-- An input producing one document-level scope error and nothing else. -/
def c7_bad_input : List Tag := [Tag.fileComment "x"]

/-- The finalized state that c7_bad_input reaches: one scope error at
document level, everything else untouched. -/
def c7_bad_state : ParserState :=
  { logger := [scope_error_message SpdxClass.File], element_stack := [],
    current_class := none, current_element := [], current_logger := [],
    creation_info := [], creation_logger := [], elements_build := {} }

/-- A package start tag followed by the first SPDXID of the stream. -/
def c8_input : List Tag := [Tag.packageName "P", Tag.spdxId "X"]

/-- The state finalize_state reaches on c7_input: an empty aggregator but a
creation info holding only its id. -/
def c7_ok_state : ParserState :=
  { logger := [], element_stack := [], current_class := none, current_element := [],
    current_logger := [], creation_info := [("spdx_id", Value.str "SPDXRef-DOCUMENT")],
    creation_logger := [], elements_build := {} }

/-- The state run_tags reaches on c8_input: the Package is open without an
id of its own, and the SPDXID value went to creation info. -/
def c8_state : ParserState :=
  { logger := [], element_stack := [], current_class := some SpdxClass.Package,
    current_element := [("name", Value.str "P")], current_logger := [],
    creation_info := [("spdx_id", Value.str "X")], creation_logger := [],
    elements_build := {} }

/- ===== Helper lemmas ===== -/

theorem dictGet_dictSet_self (d : Dict) (k : String) (v : Value) :
    dictGet (dictSet d k v) k = some v := by
  induction d with
  | nil => simp [dictSet, dictGet]
  | cons p rest ih =>
    obtain ⟨k0, v0⟩ := p
    by_cases hk : k0 = k
    · simp [dictSet, dictGet, hk]
    · simp [dictSet, dictGet, hk, ih]

theorem dictGet_dictSet_ne (d : Dict) (k k2 : String) (v : Value) (h : k ≠ k2) :
    dictGet (dictSet d k v) k2 = dictGet d k2 := by
  induction d with
  | nil => simp [dictSet, dictGet, h]
  | cons p rest ih =>
    obtain ⟨k0, v0⟩ := p
    by_cases hk : k0 = k
    · subst hk
      simp [dictSet, dictGet, h]
    · simp [dictSet, dictGet, hk, ih]

theorem check_class_creation (e : SpdxClass) (s : ParserState) :
    (check_that_current_element_matches_class_for_value e s).creation_info = s.creation_info := by
  unfold check_that_current_element_matches_class_for_value
  split <;> rfl

theorem check_exists_eq (r : Relationship) (created : List Relationship) (t : RelationshipType)
    (h : convert_relationship_types r.relationship_type = some t) :
    check_if_relationship_exists r created =
      some ((decide (r ∈ ignore_any_comments_in_relationship_list created)) ||
        (decide ((Relationship.mk r.related_spdx_element_id t r.spdx_element_id r.comment)
          ∈ ignore_any_comments_in_relationship_list created))) := by
  unfold check_if_relationship_exists convert_relationship
  rw [h]
  by_cases hm : r ∈ ignore_any_comments_in_relationship_list created
  · simp [hm]
  · simp [hm]

/- ===== Claim theorems ===== -/

/-- C1, counterexample: a FileComment arriving while a Package is open does
append the scope error at document level, but the open accumulator is NOT
left unchanged — its comment field is set by the out-of-scope tag. -/
theorem C1_counterexample :
    (p_file_comment package_open_state "c").logger =
      package_open_state.logger ++ [scope_error_message SpdxClass.File] ∧
    (p_file_comment package_open_state "c").current_element ≠
      package_open_state.current_element ∧
    dictGet (p_file_comment package_open_state "c").current_element "comment" =
      some (Value.str "c") := by
  refine ⟨rfl, by decide, rfl⟩

/-- C1, amended: when a FileComment value tag arrives while no File is in
scope, the scope error is appended to the document-level aggregator AND the
comment field write still executes on whatever accumulator is open; the
check logs but never blocks the write. -/
theorem C1_amended (s : ParserState) (v : String) (h : s.current_class ≠ some SpdxClass.File) :
    p_file_comment s v = { s with
      logger := s.logger ++ [scope_error_message SpdxClass.File],
      current_element := dictSet s.current_element "comment" (Value.str v) } := by
  unfold p_file_comment check_that_current_element_matches_class_for_value
  rw [if_neg h]

/-- C1, witness for the amended theorem at the open-Package state. -/
theorem C1_amended_w :
    p_file_comment package_open_state "c" = { package_open_state with
      logger := package_open_state.logger ++ [scope_error_message SpdxClass.File],
      current_element := dictSet package_open_state.current_element "comment" (Value.str "c") } :=
  C1_amended package_open_state "c" (by decide)

/-- C2, failing input: the six-line example of the claim does not parse; when
the File finalizes after the Package, the containment synthesis reads the
absent relationships collection before creating it and the parse aborts with
an uncaught KeyError instead of producing the Package, File and CONTAINS
edge. -/
theorem C2_evaluation : parse c2_input = Except.error PyErr.keyError := by rfl

/-- C3, failing input: with two entries whose relationshipType fails to
parse, the stage raises SPDXParsingError(logger.has_messages()) — the boolean
true, not the two collected messages — and the caller that tries to extend
its logger with that boolean payload dies with a TypeError; no defect message
survives. -/
theorem C3_evaluation :
    parse_relationships c3_input = Except.error (PyErr.parsingBool true) ∧
    parse_all_relationships c3_doc = Except.error PyErr.typeError := by
  refine ⟨by rfl, by rfl⟩

/-- C5, counterexample: a candidate differing from an existing relationship
only by its comment is a duplicate under the comments-ignored-on-both-sides
reading of the claim, yet check_if_relationship_exists misses it, because
comments are stripped from the existing side only. -/
theorem C5_counterexample :
    spec_duplicate_test c5_candidate c5_existing = true ∧
    check_if_relationship_exists c5_candidate c5_existing = some false := by
  refine ⟨rfl, rfl⟩

/-- C5, amended: the duplicate test strips comments from the existing
relationships only; the candidate keeps its comment, and its inverse inherits
that comment. For a comment-free candidate — which is what both synthesis
call sites construct — the test agrees with the comments-ignored-on-both-sides
reading, so the stated consequences about DESCRIBES/DESCRIBED_BY and
CONTAINS/CONTAINED_BY suppression hold for synthesized candidates. -/
theorem C5_amended (r : Relationship) (created : List Relationship) (t : RelationshipType)
    (h : convert_relationship_types r.relationship_type = some t) :
    check_if_relationship_exists r created =
      some ((decide (r ∈ ignore_any_comments_in_relationship_list created)) ||
        (decide ((Relationship.mk r.related_spdx_element_id t r.spdx_element_id r.comment)
          ∈ ignore_any_comments_in_relationship_list created))) ∧
    (r.comment = none →
      check_if_relationship_exists r created = some (spec_duplicate_test r created)) := by
  constructor
  · exact check_exists_eq r created t h
  · intro hc
    rw [check_exists_eq r created t h]
    unfold spec_duplicate_test
    obtain ⟨a, rt, b, cm⟩ := r
    simp only at hc
    subst hc
    simp only at h
    rw [h]
    rfl

/-- C5, witness for the amended theorem on a comment-free candidate. -/
theorem C5_amended_w :
    check_if_relationship_exists c5_plain_candidate [] =
      some (spec_duplicate_test c5_plain_candidate []) :=
  (C5_amended c5_plain_candidate [] RelationshipType.DESCRIBED_BY rfl).2 rfl

/-- C6, counterexample: a concrete license expression arriving after the
none sentinel was set does not overwrite, merge or get rejected — the
setdefault-append dereferences the sentinel and the handler raises an
uncaught AttributeError, refuting that the operation never fails. -/
theorem C6_counterexample :
    p_file_license_info file_sentinel_state (LicenseValue.license "MIT") =
      Except.error PyErr.attributeError := by rfl

/-- C6, amended: a sentinel arriving after concrete entries overwrites the
list outright (last write wins in that direction), but a concrete entry
arriving after a sentinel raises AttributeError, for both the file and the
package license-info handlers. -/
theorem C6_amended :
    (∀ (s : ParserState) (l : List Atom), s.current_class = some SpdxClass.File →
      dictGet s.current_element "license_info_in_file" = some (Value.list l) →
      p_file_license_info s LicenseValue.none_ = Except.ok { s with
        current_element :=
          dictSet s.current_element "license_info_in_file" (Value.sentinel Sentinel.spdxNone) }) ∧
    (∀ (s : ParserState) (x : Sentinel) (e : String), s.current_class = some SpdxClass.File →
      dictGet s.current_element "license_info_in_file" = some (Value.sentinel x) →
      p_file_license_info s (LicenseValue.license e) = Except.error PyErr.attributeError) ∧
    (∀ (s : ParserState) (l : List Atom), s.current_class = some SpdxClass.Package →
      dictGet s.current_element "license_info_from_files" = some (Value.list l) →
      p_pkg_license_info_from_file s LicenseValue.none_ = Except.ok { s with
        current_element :=
          dictSet s.current_element "license_info_from_files" (Value.sentinel Sentinel.spdxNone) }) ∧
    (∀ (s : ParserState) (x : Sentinel) (e : String), s.current_class = some SpdxClass.Package →
      dictGet s.current_element "license_info_from_files" = some (Value.sentinel x) →
      p_pkg_license_info_from_file s (LicenseValue.license e) = Except.error PyErr.attributeError) := by
  refine ⟨?_, ?_, ?_, ?_⟩
  · intro s l hclass hget
    unfold p_file_license_info check_that_current_element_matches_class_for_value
    rw [if_pos hclass]
  · intro s x e hclass hget
    simp [p_file_license_info, check_that_current_element_matches_class_for_value,
      dict_setdefault_append, hclass, hget]
  · intro s l hclass hget
    unfold p_pkg_license_info_from_file check_that_current_element_matches_class_for_value
    rw [if_pos hclass]
  · intro s x e hclass hget
    simp [p_pkg_license_info_from_file, check_that_current_element_matches_class_for_value,
      dict_setdefault_append, hclass, hget]

/-- C6, witness for the amended theorem at concrete file and package states. -/
theorem C6_amended_w :
    p_file_license_info file_concrete_state LicenseValue.none_ =
      Except.ok { file_concrete_state with
        current_element := dictSet file_concrete_state.current_element "license_info_in_file"
          (Value.sentinel Sentinel.spdxNone) } ∧
    p_file_license_info file_sentinel_state (LicenseValue.license "GPL-2.0-only") =
      Except.error PyErr.attributeError ∧
    p_pkg_license_info_from_file package_concrete_state LicenseValue.none_ =
      Except.ok { package_concrete_state with
        current_element := dictSet package_concrete_state.current_element
          "license_info_from_files" (Value.sentinel Sentinel.spdxNone) } ∧
    p_pkg_license_info_from_file package_sentinel_state (LicenseValue.license "GPL-2.0-only") =
      Except.error PyErr.attributeError :=
  ⟨C6_amended.1 file_concrete_state [Atom.license "MIT"] rfl rfl,
   C6_amended.2.1 file_sentinel_state Sentinel.spdxNone "GPL-2.0-only" rfl rfl,
   C6_amended.2.2.1 package_concrete_state [Atom.license "MIT"] rfl rfl,
   C6_amended.2.2.2 package_sentinel_state Sentinel.noAssertion "GPL-2.0-only" rfl rfl⟩

/-- C10, confirmed: the SPDXREF handler of annotations performs no scope
check whatsoever — for every state, open element or not and of any kind, it
sets the spdx_id of the current accumulator and appends no error to either
aggregator. -/
theorem C10_no_scope_check (s : ParserState) (v : String) :
    p_annot_spdx_id s v =
      { s with current_element := dictSet s.current_element "spdx_id" (Value.str v) } ∧
    (p_annot_spdx_id s v).logger = s.logger ∧
    (p_annot_spdx_id s v).current_logger = s.current_logger ∧
    (p_annot_spdx_id s v).current_class = s.current_class :=
  ⟨rfl, rfl, rfl, rfl⟩

/-- C9, confirmed: for every parser state and every value that does not begin
with a lowercase hexadecimal digit, the verification-code pattern fails to
match and the handler dereferences the missing match, raising an uncaught
AttributeError rather than logging a local error; the branch is reachable
from the public parse interface, as the concrete run in the second conjunct
shows. -/
theorem C9_match_none_raises (s : ParserState) (v : String)
    (h : begins_with_lower_hex v = false) :
    p_pkg_verification_code s v = Except.error PyErr.attributeError ∧
    parse [Tag.packageName "P", Tag.pkgVerifCode "invalid"] =
      Except.error PyErr.attributeError := by
  constructor
  · have hx : v.data.takeWhile is_lower_hex = [] := by
      cases hd : v.data with
      | nil => rfl
      | cons c cs =>
        unfold begins_with_lower_hex at h
        rw [hd] at h
        have h2 : is_lower_hex c = false := h
        simp [List.takeWhile_cons, h2]
    have hm : verif_code_match v = none := by
      unfold verif_code_match
      rw [hx]
      rfl
    unfold p_pkg_verification_code
    rw [hm]
  · rfl

/-- C9, witness at a non-hex value and the initial state. -/
theorem C9_match_none_raises_w :
    p_pkg_verification_code init_state "invalid" = Except.error PyErr.attributeError ∧
    parse [Tag.packageName "P", Tag.pkgVerifCode "invalid"] =
      Except.error PyErr.attributeError :=
  C9_match_none_raises init_state "invalid" (by rfl)

/-- C7, counterexample: an input whose finalized document-level aggregator is
empty and whose parse nonetheless produces no document, because typed
construction of the creation info fails afterwards — refuting the claimed
if-and-only-if. -/
theorem C7_counterexample :
    finalize_state c7_input = Except.ok c7_ok_state ∧ c7_ok_state.logger = [] ∧
    (match parse c7_input with
     | Except.ok _ => False
     | Except.error _ => True) := by
  refine ⟨by rfl, rfl, ?_⟩
  exact True.intro

/-- C7, amended: a non-empty document-level aggregator after end-of-input
finalization makes the parse raise carrying exactly the full ordered message
list, and a document is returned only if the aggregator is empty; an empty
aggregator however does not guarantee a document, since typed construction of
the creation info (or document) may still raise. -/
theorem C7_amended (ts : List Tag) (s : ParserState)
    (h : finalize_state ts = Except.ok s) :
    (s.logger ≠ [] → parse ts = Except.error (PyErr.parsingMsgs s.logger)) ∧
    (∀ d, parse ts = Except.ok d → s.logger = []) := by
  have hparse : parse ts = (if s.logger.isEmpty then
      match constructCreationInfo s.creation_info with
      | Except.error ms =>
        Except.error (PyErr.parsingMsgs [construct_error_message "CreationInfo" ms])
      | Except.ok ci => Except.ok (constructDocument ci s.elements_build)
    else Except.error (PyErr.parsingMsgs s.logger)) := by
    unfold parse
    rw [h]
  constructor
  · intro hne
    have hb : s.logger.isEmpty = false := by
      cases hl : s.logger with
      | nil => exact absurd hl hne
      | cons a as => rfl
    simp [hparse, hb]
  · intro d hd
    rw [hparse] at hd
    by_cases hb : s.logger.isEmpty = true
    · cases hl : s.logger with
      | nil => rfl
      | cons a as =>
        rw [hl] at hb
        simp at hb
    · rw [if_neg hb] at hd
      exact Except.noConfusion hd

/-- C7, witness: the single out-of-scope tag input raises with its one-entry
aggregator as the full message list. -/
theorem C7_amended_w :
    parse c7_bad_input = Except.error (PyErr.parsingMsgs [scope_error_message SpdxClass.File]) :=
  (C7_amended c7_bad_input c7_bad_state (by rfl)).1 (by decide)

theorem describes_loop_eq (docId : String) (created : List Relationship) (ids : List String) :
    parse_document_describes_loop (some docId) created ids =
      Except.ok ([], (ids.filter (fun i =>
        decide (check_if_relationship_exists (describes_cand docId i) created = some false))).map
        (describes_cand docId)) := by
  induction ids with
  | nil => rfl
  | cons i rest ih =>
    have hcand : relationship_construct (some docId) RelationshipType.DESCRIBES (some i) none =
        Except.ok (describes_cand docId i) := rfl
    by_cases hdup : check_if_relationship_exists (describes_cand docId i) created = some false
    · simp only [parse_document_describes_loop, hcand]
      rw [hdup, ih]
      simp [List.filter_cons, hdup]
    · have htrue : check_if_relationship_exists (describes_cand docId i) created = some true := by
        cases ho : check_if_relationship_exists (describes_cand docId i) created with
        | none =>
          rw [check_exists_eq (describes_cand docId i) created
            RelationshipType.DESCRIBED_BY rfl] at ho
          exact Option.noConfusion ho
        | some b =>
          cases b with
          | false => exact absurd ho hdup
          | true => rfl
      simp only [parse_document_describes_loop, hcand]
      rw [htrue, ih]
      simp [List.filter_cons, htrue]

theorem has_files_loop_eq (pkgId : String) (created : List Relationship) (fids : List String) :
    has_files_file_loop (some pkgId) created fids =
      Except.ok ([], (fids.filter (fun i =>
        decide (check_if_relationship_exists (contains_cand pkgId i) created = some false))).map
        (contains_cand pkgId)) := by
  induction fids with
  | nil => rfl
  | cons i rest ih =>
    have hcand : relationship_construct (some pkgId) RelationshipType.CONTAINS (some i) none =
        Except.ok (contains_cand pkgId i) := rfl
    by_cases hdup : check_if_relationship_exists (contains_cand pkgId i) created = some false
    · simp only [has_files_file_loop, hcand]
      rw [hdup, ih]
      simp [List.filter_cons, hdup]
    · have htrue : check_if_relationship_exists (contains_cand pkgId i) created = some true := by
        cases ho : check_if_relationship_exists (contains_cand pkgId i) created with
        | none =>
          rw [check_exists_eq (contains_cand pkgId i) created
            RelationshipType.CONTAINED_BY rfl] at ho
          exact Option.noConfusion ho
        | some b =>
          cases b with
          | false => exact absurd ho hdup
          | true => rfl
      simp only [has_files_file_loop, hcand]
      rw [htrue, ih]
      simp [List.filter_cons, htrue]

theorem file_deps_inner_eq (fid : String) (deps : List String) :
    file_dependencies_loop (some fid) deps =
      ([], deps.map (fun dep => Relationship.mk (SpdxRef.ref dep)
        RelationshipType.DEPENDENCY_OF (SpdxRef.ref fid) none)) := by
  induction deps with
  | nil => rfl
  | cons dep rest ih =>
    simp only [file_dependencies_loop, relationship_construct]
    rw [ih]
    simp

theorem file_deps_loop_eq : ∀ (files : List FileDict),
    (∀ f ∈ files, f.SPDXID.isSome = true) →
    parse_file_dependencies_loop files = ([], list_flat dependency_edges files) := by
  intro files
  induction files with
  | nil => intro _; rfl
  | cons f rest ih =>
    intro h
    have hf : f.SPDXID.isSome = true := h f (List.mem_cons_self f rest)
    have hrest : ∀ g ∈ rest, g.SPDXID.isSome = true :=
      fun g hg => h g (List.mem_cons_of_mem f hg)
    obtain ⟨fid, hfid⟩ := Option.isSome_iff_exists.mp hf
    by_cases hemp : f.fileDependencies.isEmpty = true
    · have hnil : f.fileDependencies = [] := by
        cases hd : f.fileDependencies with
        | nil => rfl
        | cons a as =>
          rw [hd] at hemp
          simp at hemp
      simp only [parse_file_dependencies_loop]
      rw [if_pos hemp, ih hrest]
      simp [list_flat, dependency_edges, hfid, hnil]
    · simp only [parse_file_dependencies_loop]
      rw [if_neg hemp, hfid, file_deps_inner_eq, ih hrest]
      simp [list_flat, dependency_edges, hfid]

/-- C4, counterexample: a document that lists the same described id twice
yields TWO identical DESCRIBES edges, refuting the claimed suppression of
repeated identical documentDescribes entries. -/
theorem C4_counterexample :
    parse_all_relationships c4_doc =
      Except.ok [describes_cand "SPDXRef-DOC" "SPDXRef-B",
                 describes_cand "SPDXRef-DOC" "SPDXRef-B"] := by rfl

/-- C4, amended: fileDependencies entries each produce their own
DEPENDENCY_OF edge with no suppression of any kind, as claimed; but
documentDescribes and hasFiles candidates are only tested against the
relationships created BEFORE their phase began — each phase result is exactly
the per-entry filter against that fixed collection, so repeats within the
same list are all emitted and only candidates already present in (or inverse
to) the earlier collection are suppressed. -/
theorem C4_amended :
    (∀ (files : List FileDict), (∀ f ∈ files, f.SPDXID.isSome = true) →
      parse_file_dependencies files = Except.ok (list_flat dependency_edges files)) ∧
    (∀ (docId : String) (ids : List String) (created : List Relationship),
      parse_document_describes (some docId) ids created =
        Except.ok ((ids.filter (fun i =>
          decide (check_if_relationship_exists (describes_cand docId i) created =
            some false))).map (describes_cand docId))) ∧
    (∀ (pkgId : String) (fids : List String) (created : List Relationship),
      parse_has_files [{ SPDXID := some pkgId, hasFiles := fids }] created =
        Except.ok ((fids.filter (fun i =>
          decide (check_if_relationship_exists (contains_cand pkgId i) created =
            some false))).map (contains_cand pkgId))) := by
  refine ⟨?_, ?_, ?_⟩
  · intro files h
    unfold parse_file_dependencies
    rw [file_deps_loop_eq files h]
    rfl
  · intro docId ids created
    unfold parse_document_describes
    rw [describes_loop_eq]
    rfl
  · intro pkgId fids created
    unfold parse_has_files
    by_cases hemp : fids.isEmpty = true
    · have hnil : fids = [] := by
        cases hd : fids with
        | nil => rfl
        | cons a as =>
          rw [hd] at hemp
          simp at hemp
      subst hnil
      rfl
    · simp only [parse_has_files_loop]
      rw [if_neg hemp, has_files_loop_eq]
      simp

/-- C4, witness: the same dependency id repeated across two files yields two
distinct DEPENDENCY_OF edges. -/
theorem C4_amended_w :
    parse_file_dependencies
      [{ SPDXID := some "SPDXRef-f1", fileDependencies := ["SPDXRef-dep"] },
       { SPDXID := some "SPDXRef-f2", fileDependencies := ["SPDXRef-dep"] }] =
      Except.ok (list_flat dependency_edges
        [{ SPDXID := some "SPDXRef-f1", fileDependencies := ["SPDXRef-dep"] },
         { SPDXID := some "SPDXRef-f2", fileDependencies := ["SPDXRef-dep"] }]) :=
  C4_amended.1
    [{ SPDXID := some "SPDXRef-f1", fileDependencies := ["SPDXRef-dep"] },
     { SPDXID := some "SPDXRef-f2", fileDependencies := ["SPDXRef-dep"] }] (by decide)

theorem element_stack_push_creation (s : ParserState) :
    (element_stack_push s).creation_info = s.creation_info := by
  unfold element_stack_push
  split <;> rfl

theorem check_preceding_creation (s s1 : ParserState)
    (h : check_for_preceding_package_and_build_contains_relationship s = Except.ok s1) :
    s1.creation_info = s.creation_info := by
  simp only [check_for_preceding_package_and_build_contains_relationship] at h
  repeat' split at h
  all_goals try exact Except.noConfusion h
  all_goals injection h with h1
  all_goals subst h1
  all_goals rfl

theorem construct_current_element_creation (s s1 : ParserState)
    (h : construct_current_element s = Except.ok s1) :
    s1.creation_info = s.creation_info := by
  simp only [construct_current_element] at h
  repeat' split at h
  all_goals try exact Except.noConfusion h
  all_goals injection h with h1
  all_goals subst h1
  all_goals first
    | rfl
    | (rename_i heq2
       have h3 := check_preceding_creation _ _ heq2
       exact h3)

theorem begin_new_creation (c : SpdxClass) (s s1 : ParserState)
    (h : begin_new_current_element c s = Except.ok s1) :
    s1.creation_info = s.creation_info := by
  unfold begin_new_current_element at h
  split at h
  · exact Except.noConfusion h
  · injection h with h1
    subst h1
    rename_i s2 heq
    have h2 := construct_current_element_creation _ _ heq
    exact h2.trans (element_stack_push_creation s)

theorem step_creation_id (s : ParserState) (t : Tag) (s1 : ParserState)
    (h : step s t = Except.ok s1) :
    dictMember s1.creation_info "spdx_id" =
      (dictMember s.creation_info "spdx_id" || is_spdx_id_tag t) := by
  cases t with
  | spdxId v =>
    simp only [step] at h
    injection h with h1
    subst h1
    unfold p_spdx_id
    by_cases hm : dictMember s.creation_info "spdx_id" = true
    · rw [if_pos hm]
      simp [is_spdx_id_tag, hm]
    · rw [if_neg hm]
      simp [is_spdx_id_tag, dictMember, dictGet_dictSet_self]
  | docName v =>
    simp only [step] at h
    injection h with h1
    subst h1
    simp [p_doc_name, is_spdx_id_tag, dictMember,
      dictGet_dictSet_ne s.creation_info "name" "spdx_id" (Value.str v) (by decide)]
  | packageName v =>
    simp only [step, p_package_name] at h
    split at h
    · exact Except.noConfusion h
    · injection h with h1
      subst h1
      rename_i s2 heq
      have h2 := begin_new_creation _ _ _ heq
      simp only [is_spdx_id_tag, Bool.or_false]
      show dictMember s2.creation_info "spdx_id" = dictMember s.creation_info "spdx_id"
      rw [h2]
  | fileName v =>
    simp only [step, p_file_name] at h
    split at h
    · exact Except.noConfusion h
    · injection h with h1
      subst h1
      rename_i s2 heq
      have h2 := begin_new_creation _ _ _ heq
      simp only [is_spdx_id_tag, Bool.or_false]
      show dictMember s2.creation_info "spdx_id" = dictMember s.creation_info "spdx_id"
      rw [h2]
  | fileType ft =>
    simp only [step, p_file_type] at h
    split at h
    · exact Except.noConfusion h
    · injection h with h1
      subst h1
      simp only [is_spdx_id_tag, Bool.or_false]
      show dictMember (check_that_current_element_matches_class_for_value
        SpdxClass.File s).creation_info "spdx_id" = _
      rw [check_class_creation]
  | fileComment v =>
    simp only [step] at h
    injection h with h1
    subst h1
    simp only [is_spdx_id_tag, Bool.or_false]
    show dictMember (check_that_current_element_matches_class_for_value
      SpdxClass.File s).creation_info "spdx_id" = _
    rw [check_class_creation]
  | fileLicsInfo lv =>
    cases lv with
    | license e =>
      simp only [step, p_file_license_info] at h
      split at h
      · exact Except.noConfusion h
      · injection h with h1
        subst h1
        simp only [is_spdx_id_tag, Bool.or_false]
        show dictMember (check_that_current_element_matches_class_for_value
          SpdxClass.File s).creation_info "spdx_id" = _
        rw [check_class_creation]
    | noAssertion =>
      simp only [step, p_file_license_info] at h
      injection h with h1
      subst h1
      simp only [is_spdx_id_tag, Bool.or_false]
      show dictMember (check_that_current_element_matches_class_for_value
        SpdxClass.File s).creation_info "spdx_id" = _
      rw [check_class_creation]
    | none_ =>
      simp only [step, p_file_license_info] at h
      injection h with h1
      subst h1
      simp only [is_spdx_id_tag, Bool.or_false]
      show dictMember (check_that_current_element_matches_class_for_value
        SpdxClass.File s).creation_info "spdx_id" = _
      rw [check_class_creation]
  | pkgLicsFromFile lv =>
    cases lv with
    | license e =>
      simp only [step, p_pkg_license_info_from_file] at h
      split at h
      · exact Except.noConfusion h
      · injection h with h1
        subst h1
        simp only [is_spdx_id_tag, Bool.or_false]
        show dictMember (check_that_current_element_matches_class_for_value
          SpdxClass.Package s).creation_info "spdx_id" = _
        rw [check_class_creation]
    | noAssertion =>
      simp only [step, p_pkg_license_info_from_file] at h
      injection h with h1
      subst h1
      simp only [is_spdx_id_tag, Bool.or_false]
      show dictMember (check_that_current_element_matches_class_for_value
        SpdxClass.Package s).creation_info "spdx_id" = _
      rw [check_class_creation]
    | none_ =>
      simp only [step, p_pkg_license_info_from_file] at h
      injection h with h1
      subst h1
      simp only [is_spdx_id_tag, Bool.or_false]
      show dictMember (check_that_current_element_matches_class_for_value
        SpdxClass.Package s).creation_info "spdx_id" = _
      rw [check_class_creation]
  | pkgVerifCode v =>
    simp only [step, p_pkg_verification_code] at h
    split at h
    · exact Except.noConfusion h
    · injection h with h1
      subst h1
      simp only [is_spdx_id_tag, Bool.or_false]
      show dictMember (check_that_current_element_matches_class_for_value
        SpdxClass.Package s).creation_info "spdx_id" = _
      rw [check_class_creation]
  | annotSpdxId v =>
    simp only [step] at h
    injection h with h1
    subst h1
    simp only [is_spdx_id_tag, Bool.or_false]
    rfl

theorem run_tags_creation_id : ∀ (ts : List Tag) (s0 s : ParserState),
    run_tags_from s0 ts = Except.ok s →
    dictMember s.creation_info "spdx_id" =
      (dictMember s0.creation_info "spdx_id" || ts.any is_spdx_id_tag) := by
  intro ts
  induction ts with
  | nil =>
    intro s0 s h
    injection h with h1
    subst h1
    simp
  | cons t rest ih =>
    intro s0 s h
    simp only [run_tags_from] at h
    split at h
    · exact Except.noConfusion h
    · rename_i s2 heq
      have h1 := step_creation_id s0 t s2 heq
      have h2 := ih s2 s h
      rw [h2, h1]
      simp [List.any_cons, Bool.or_assoc]

/-- C8, counterexample: an SPDXID token arriving after the PackageName start
tag — the very first id of the stream — still attaches to the creation info
and leaves the open Package accumulator without an id, refuting that every
SPDXID after an element-start tag targets the current element. -/
theorem C8_counterexample :
    run_tags c8_input = Except.ok c8_state ∧
    dictGet c8_state.creation_info "spdx_id" = some (Value.str "X") ∧
    dictMember c8_state.current_element "spdx_id" = false := by
  refine ⟨by rfl, rfl, rfl⟩

/-- C8, amended: the target of an SPDXID token is decided by whether the
document id has already been set, which over a run from the fresh state means
whether any earlier SPDXID token occurred — not by whether an element-start
tag was seen: the first SPDXID of the stream attaches to creation info
wherever it occurs, and every later one to the current accumulator. -/
theorem C8_amended (pre : List Tag) (v : String) (s : ParserState)
    (h : run_tags pre = Except.ok s) :
    (pre.any is_spdx_id_tag = false →
      step s (Tag.spdxId v) =
        Except.ok { s with creation_info := dictSet s.creation_info "spdx_id" (Value.str v) }) ∧
    (pre.any is_spdx_id_tag = true →
      step s (Tag.spdxId v) =
        Except.ok { s with
          current_element := dictSet s.current_element "spdx_id" (Value.str v) }) := by
  have hmem : dictMember s.creation_info "spdx_id" = pre.any is_spdx_id_tag := by
    have h0 := run_tags_creation_id pre init_state s h
    simpa [init_state, dictMember, dictGet] using h0
  constructor
  · intro h0
    simp [step, p_spdx_id, hmem, h0]
  · intro h1
    simp [step, p_spdx_id, hmem, h1]

/-- C8, witness: after the run reaching c8_state (whose stream already holds
one SPDXID), a further SPDXID goes to the current element. -/
theorem C8_amended_w :
    step c8_state (Tag.spdxId "Y") =
      Except.ok { c8_state with
        current_element := dictSet c8_state.current_element "spdx_id" (Value.str "Y") } :=
  (C8_amended c8_input "Y" c8_state (by rfl)).2 (by rfl)
